import Mathlib

/-!
Verification of the BasePlot orchestration core (src/Base/plot.ts of G2Plot).

The development is a shallow embedding of `BasePlot`: JavaScript numbers are
modelled as rationals, plain-object dictionaries (style blocks) as functions
from keys to optional values, absent fields as `Option`, and the mutable
instance as an explicit `PlotState` record threaded through the lifecycle
operations.  External collaborators that are not part of src/ (the text-chrome
factory, `getAutoPadding` from util/padding, the event map and `onEvent` from
util/event) are modelled from the specification; each such definition carries a
doc comment saying so.  Abstract subclass hooks (`_scale`, `_coord`, ...) are
modelled as an explicit `Variant` bundle of contribution functions, mirroring
the spec treatment of variant extension points.
-/

/-- A JS style dictionary: finitely many keys mapped to (rational) values.
Modelled as a lookup function so that repeated merges are extensional. -/
def Style : Type := String → Option ℚ

/-- The empty style dictionary. -/
def emptyStyle : Style := fun _ => none

/-- Shallow right-biased merge of style dictionaries, as performed by
`_.assign` / `_.mix` / `_.deepMix` on leaf objects: keys of `b` win. -/
def mixStyle (a b : Style) : Style := fun k =>
  match b k with
  | some v => some v
  | none => a k

/-- `Math.min` on JS numbers, written with an explicit comparison so that
concrete instances reduce. -/
def qmin (a b : ℚ) : ℚ := if a ≤ b then a else b

/-- `Math.max` on JS numbers, written with an explicit comparison so that
concrete instances reduce. -/
def qmax (a b : ℚ) : ℚ := if a ≤ b then b else a

/-- A concrete four-side padding, `[top, right, bottom, left]` in the source. -/
structure PaddingQuad where
  top : ℚ
  right : ℚ
  bottom : ℚ
  left : ℚ
deriving DecidableEq

/-- A padding specification: the literal string marker `"auto"` or a concrete
four-tuple (source type: `'auto' | number[]`). -/
inductive Padding where
  | auto : Padding
  | tuple : PaddingQuad → Padding
deriving DecidableEq

/-- Axis-aligned box as built by `new BBox(x, y, width, height)` from antv/g. -/
structure BBoxS where
  minX : ℚ
  minY : ℚ
  width : ℚ
  height : ℚ
deriving DecidableEq

/-- Derived right edge of a `BBoxS`. -/
def BBoxS.maxX (b : BBoxS) : ℚ := b.minX + b.width

/-- Derived bottom edge of a `BBoxS`. -/
def BBoxS.maxY (b : BBoxS) : ℚ := b.minY + b.height

/-- The plain `\x7bminX, maxX, minY, maxY\x7d` object returned by
`_getViewMargin` (it is not a `BBox` instance in the source). -/
structure MarginBox where
  minX : ℚ
  maxX : ℚ
  minY : ℚ
  maxY : ℚ
deriving DecidableEq

/-- One data record of `props.data`. The core never inspects record contents
(it only passes data through and checks emptiness), so rows are key/value
lists. -/
def DataRow : Type := List (String × ℚ)

/-- User title configuration (`props.title`). -/
structure TitleCfg where
  text : Option String := none
  alignWithAxis : Option Bool := none
  style : Option Style := none

/-- User description configuration (`props.description`). -/
structure DescCfg where
  text : Option String := none
  style : Option Style := none

/-- User tooltip configuration (`props.tooltip`). `crosshairs` is opaque to
the core (only copied), so it is modelled by a rational tag. -/
structure TooltipCfg where
  visible : Option Bool := none
  crosshairs : Option ℚ := none
  shared : Option Bool := none
  style : Option Style := none

/-- User legend configuration (`props.legend`). `formatter` is an opaque
function value to the core, modelled by a rational tag. -/
structure LegendCfg where
  visible : Option Bool := none
  position : Option String := none
  formatter : Option ℚ := none
  offsetX : Option ℚ := none
  offsetY : Option ℚ := none
  flipPage : Option Bool := none

/-- Per-field metadata (`props.meta`): a dictionary keyed by field name whose
entries are scale-configuration dictionaries. -/
def Meta : Type := String → Option Style

/-- One entry of `props.events`: the declared key, the handler function name
(used for event-map lookup), an identity for the handler function, and whether
the value is actually a function (`_.isFunction`). -/
structure EventDecl where
  key : String
  name : String
  handler : ℕ
  isFn : Bool
deriving DecidableEq

/-- The user configuration `PlotConfig` as consumed by `BasePlot`: every field
the base class reads. Chart-variant-specific options are opaque to the base
class and live behind the `Variant` hook bundle. -/
structure PlotConfig where
  data : Option (List DataRow) := none
  padding : Option Padding := none
  title : Option TitleCfg := none
  description : Option DescCfg := none
  tooltip : Option TooltipCfg := none
  legend : Option LegendCfg := none
  meta : Option Meta := none
  events : Option (List EventDecl) := none

/-- The empty partial configuration (`\x7b\x7d`). -/
def emptyConfig : PlotConfig := {}

/-- `_.deepMix` on scalar / array-valued fields: arrays are replaced
wholesale and defined scalars win, `undefined` source values are skipped. -/
def mergeOpt {α : Type} (a b : Option α) : Option α :=
  match b with
  | some y => some y
  | none => a

/-- `_.deepMix` on a field holding a nested plain object: recurse when both
sides are present, otherwise keep whichever exists. -/
def mergeObjOpt {α : Type} (f : α → α → α) (a b : Option α) : Option α :=
  match a, b with
  | some x, some y => some (f x y)
  | none, some y => some y
  | x, none => x

/-- `_.deepMix` on an optional style sub-object. -/
def mergeStyleOpt (a b : Option Style) : Option Style :=
  mergeObjOpt mixStyle a b

/-- Deep merge of two title configurations. -/
def mergeTitle (a b : TitleCfg) : TitleCfg where
  text := mergeOpt a.text b.text
  alignWithAxis := mergeOpt a.alignWithAxis b.alignWithAxis
  style := mergeStyleOpt a.style b.style

/-- Deep merge of two description configurations. -/
def mergeDesc (a b : DescCfg) : DescCfg where
  text := mergeOpt a.text b.text
  style := mergeStyleOpt a.style b.style

/-- Deep merge of two tooltip configurations. -/
def mergeTooltip (a b : TooltipCfg) : TooltipCfg where
  visible := mergeOpt a.visible b.visible
  crosshairs := mergeOpt a.crosshairs b.crosshairs
  shared := mergeOpt a.shared b.shared
  style := mergeStyleOpt a.style b.style

/-- Deep merge of two legend configurations. -/
def mergeLegend (a b : LegendCfg) : LegendCfg where
  visible := mergeOpt a.visible b.visible
  position := mergeOpt a.position b.position
  formatter := mergeOpt a.formatter b.formatter
  offsetX := mergeOpt a.offsetX b.offsetX
  offsetY := mergeOpt a.offsetY b.offsetY
  flipPage := mergeOpt a.flipPage b.flipPage

/-- Deep merge of two meta dictionaries (per field name, then per key). -/
def mergeMeta (a b : Meta) : Meta := fun f => mergeStyleOpt (a f) (b f)

/-- `_.deepMix(\x7b\x7d, a, b)` on two `PlotConfig`s: plain-object fields are
merged recursively, arrays (`data`, `events`, a padding tuple) are replaced
wholesale, and defined scalars of `b` win. -/
def deepMixCfg (a b : PlotConfig) : PlotConfig where
  data := mergeOpt a.data b.data
  padding := mergeOpt a.padding b.padding
  title := mergeObjOpt mergeTitle a.title b.title
  description := mergeObjOpt mergeDesc a.description b.description
  tooltip := mergeObjOpt mergeTooltip a.tooltip b.tooltip
  legend := mergeObjOpt mergeLegend a.legend b.legend
  meta := mergeObjOpt mergeMeta a.meta b.meta
  events := mergeOpt a.events b.events

/-- One block of the resolved theme (`theme.title` / `theme.description`):
layout constants plus the style keys that `_.mix(theme.block, props.block.style)`
merges into.  The source stores constants and style keys in one plain object;
we separate the layout constants the core reads from the open style
dictionary, assuming style overrides do not collide with the layout keys. -/
structure ThemeBlock where
  top_margin : ℚ := 0
  bottom_margin : ℚ := 0
  alignWithAxis : Option Bool := none
  style : Style := emptyStyle

/-- The resolved theme delivered by the theme controller: everything
`BasePlot` reads from `this._config.theme` / `this.themeController.theme`. -/
structure Theme where
  defaultLegendPosition : String := "bottom"
  padding : Padding := Padding.tuple ⟨0, 0, 0, 0⟩
  defaultPadding : PaddingQuad := ⟨0, 0, 0, 0⟩
  title : ThemeBlock := {}
  description : ThemeBlock := {}
  tooltip : Style := emptyStyle

/-- The tooltip record accumulated in `this._config.tooltip` when the tooltip
is not disabled: the structural defaults written in `_init` plus the
`crosshairs` / `shared` keys that `_tooltip` assigns (possibly `undefined`,
since `_.assign` copies keys whose value is `undefined`). -/
structure TooltipAcc where
  showTitle : Bool := true
  triggerOn : String := "mousemove"
  inPanel : Bool := true
  useHtml : Bool := true
  crosshairs : Option ℚ := none
  shared : Option Bool := none
deriving DecidableEq

/-- The tooltip section of the assembled configuration: either the disabled
sentinel `false` written by `_setConfig('tooltip', false)` or the record. -/
inductive TooltipSection where
  | disabled : TooltipSection
  | cfg : TooltipAcc → TooltipSection
deriving DecidableEq

/-- The legends record accumulated in `this._config.legends`.  `_.assign`
copies `undefined`-valued keys, so the theme default position is overwritten
by the props value even when the props omit it. -/
structure LegendsAcc where
  position : Option String := none
  formatter : Option ℚ := none
  offsetX : Option ℚ := none
  offsetY : Option ℚ := none
  flipPage : Option Bool := none
deriving DecidableEq

/-- The legends section: the disabled sentinel `false` or the record. -/
inductive LegendsSection where
  | disabled : LegendsSection
  | cfg : LegendsAcc → LegendsSection
deriving DecidableEq

/-- The bundle of abstract subclass hooks (`_setDefaultG2Config`, `_scale`,
`_axis`, `_coord`, `_annotation`, `_addElements`, `_animation`,
`_interactions`) and the optional event parser of `_events`.  Each hook only
writes its own config section; `scales` is kept concrete (needed for the meta
merge), the remaining sections are summarised by an opaque value.  `eventMap`
models the EVENT_MAP lookup table of util/event (outside src/): a
name-to-public-event-name mapping with fallback to the declared key. -/
structure Variant where
  scales : PlotConfig → List (String × Style)
  hooks : PlotConfig → ℚ
  eventMap : String → Option String

/-- The assembled rendering configuration `this._config` (G2Config): scale
configurations keyed by field, the legends / tooltip sections, the opaque
subclass-hook sections, the theme reference and the resolved panel range. -/
structure G2Config where
  scales : List (String × Style)
  legends : LegendsSection
  tooltip : TooltipSection
  hooks : ℚ
  theme : Theme
  panelRange : BBoxS

/-- An event-handler record `(type, handler)` pushed by `onEvent`; `epoch`
is ghost data recording which lifecycle epoch created the binding. -/
structure EventRecord where
  type : String
  handler : ℕ
  epoch : ℕ
deriving DecidableEq

/-- The drawable view (`this.plot`, a `G2.View`): its epoch, the multiset of
currently bound handler records, the bound data, a render counter, the
vertical start coordinate derived from the view margin, and whether
`plot.destroy()` has been called on it. -/
structure ViewDesc where
  epoch : ℕ := 0
  bound : List EventRecord := []
  destroyedV : Bool := false
  data : Option (List DataRow) := none
  renders : ℕ := 0
  startY : ℚ := 0

/-- Errors surfaced by the embedded lifecycle: `typeError` models the
TypeError thrown when `_description` dereferences an absent `props.title`;
`fuelExhausted` marks insufficient recursion fuel (never reached with fuel 2);
`instanceDestroyed` is the fail-fast signal demanded by the specification,
which the source never actually produces. -/
inductive Err where
  | typeError : Err
  | fuelExhausted : Err
  | instanceDestroyed : Err
deriving DecidableEq

/-- The full mutable instance state of a `BasePlot`. -/
structure PlotState where
  props : PlotConfig
  originalProps : PlotConfig
  theme : Theme
  config : G2Config
  eventHandlers : List EventRecord
  paddingComponents : List BBoxS
  view : ViewDesc
  title : Option BBoxS
  description : Option BBoxS
  destroyed : Bool
  epoch : ℕ
  measurePasses : ℕ
  canvasW : ℚ
  canvasH : ℚ

instance : Inhabited PlotState where
  default :=
    { props := {}, originalProps := {}, theme := {},
      config := { scales := [], legends := .disabled, tooltip := .disabled,
                  hooks := 0, theme := {}, panelRange := ⟨0, 0, 0, 0⟩ },
      eventHandlers := [], paddingComponents := [], view := {},
      title := none, description := none, destroyed := false,
      epoch := 0, measurePasses := 0, canvasW := 0, canvasH := 0 }

/-- Modelled from the spec: the external text-chrome factory (TextDescription,
components/description outside src/) places a text block at the given
left/top margins with the given wrap width and reports its measured bounding
box.  We model the measured box as anchored at the margins, 8 units wide per
character capped at the wrap width, and 14 units tall. -/
def measureText (leftMargin topMargin : ℚ) (text : String) (wrapperWidth : ℚ) : BBoxS :=
  ⟨leftMargin, topMargin, qmin (8 * (text.length : ℚ)) wrapperWidth, 14⟩

/-- Modelled from the spec: `getAutoPadding` (src/util/padding.ts, outside
src/) computes the final padding from the measured extents of all padding
participants, never less than the theme default padding floor per side.  We
model the top inset as the envelope of the participants' bottom edges floored
by the default, and the remaining sides as the default floor. -/
def getAutoPadding (boxes : List BBoxS) (floor : PaddingQuad) : PaddingQuad where
  top := boxes.foldl (fun a b => qmax a b.maxY) floor.top
  right := floor.right
  bottom := floor.bottom
  left := floor.left

/-- The effective padding specification: `props.padding ? props.padding :
this._config.theme.padding` (a present props padding is always truthy here,
since both the "auto" string and an array are truthy). -/
def resolvedPadding (p : PlotConfig) (T : Theme) : Padding :=
  p.padding.getD T.padding

/-- `_getPadding`: the concrete padding quad handed to the view, the neutral
quad when the specification is the "auto" marker. -/
def _getPadding (p : PlotConfig) (T : Theme) : PaddingQuad :=
  match resolvedPadding p T with
  | Padding.auto => ⟨0, 0, 0, 0⟩
  | Padding.tuple q => q

/-- `_getPanelRange`: `new BBox(left, top, width - left - right,
height - top - bottom)` from the padding quad and the canvas size. -/
def _getPanelRange (p : PlotConfig) (T : Theme) (w h : ℚ) : BBoxS :=
  let pad := _getPadding p T
  ⟨pad.left, pad.top, w - pad.left - pad.right, h - pad.top - pad.bottom⟩

/-- `_title`: the measured chrome box when `props.title` is present, placed at
the panel range left edge and the theme title top margin. -/
def titleBoxOf (p : PlotConfig) (T : Theme) (range : BBoxS) : Option BBoxS :=
  match p.title with
  | none => none
  | some t => some (measureText range.minX T.title.top_margin (t.text.getD "") range.width)

/-- Whether `_description` dereferences the absent title config:
`props.title.alignWithAxis` is read unconditionally whenever a description is
configured, so a description without a title throws a TypeError. -/
def descCrash (p : PlotConfig) : Bool :=
  p.description.isSome && p.title.isNone

/-- `_description`: the measured chrome box when `props.description` is
present, placed below the title box (when one exists) plus the theme
description top margin.  Only meaningful when `descCrash` is false. -/
def descBoxOf (p : PlotConfig) (T : Theme) (range : BBoxS) (tb : Option BBoxS) :
    Option BBoxS :=
  match p.description with
  | none => none
  | some d =>
    let topMargin := match tb with
      | some b => b.minY + b.height
      | none => 0
    some (measureText range.minX (topMargin + T.description.top_margin)
      (d.text.getD "") range.width)

/-- The net effect of `_.mix(theme.title, props.title.style)` in `_title` on
the theme title style block (the source mutates the shared theme object). -/
def titleStyleOf (p : PlotConfig) (s : Style) : Style :=
  match p.title with
  | some t =>
    match t.style with
    | some S => mixStyle s S
    | none => s
  | none => s

/-- The net effect of `_.mix(theme.description, props.description.style)` in
`_description` on the theme description style block. -/
def descStyleOf (p : PlotConfig) (s : Style) : Style :=
  match p.description with
  | some d =>
    match d.style with
    | some S => mixStyle s S
    | none => s
  | none => s

/-- The tooltip disabled toggle: `props.tooltip && props.tooltip.visible ===
false`. -/
def tooltipDisabled (p : PlotConfig) : Bool :=
  match p.tooltip with
  | some tt => tt.visible == some false
  | none => false

/-- `_tooltip`, section part: the disabled sentinel on the visibility
short-circuit, otherwise the structural defaults from `_init` with the
`crosshairs` / `shared` keys assigned from the props. -/
def _tooltip (p : PlotConfig) : TooltipSection :=
  if tooltipDisabled p then TooltipSection.disabled
  else TooltipSection.cfg
    { crosshairs := p.tooltip.bind TooltipCfg.crosshairs,
      shared := p.tooltip.bind TooltipCfg.shared }

/-- `_tooltip`, theme-mutation part: `_.deepMix(this._config.theme.tooltip,
props.tooltip.style)` runs only when the tooltip was not short-circuited to
disabled and a style is supplied. -/
def tooltipStyleOf (p : PlotConfig) (s : Style) : Style :=
  if tooltipDisabled p then s
  else
    match p.tooltip.bind TooltipCfg.style with
    | some S => mixStyle s S
    | none => s

/-- The legend disabled toggle: `props.legend && props.legend.visible ===
false`. -/
def legendDisabled (p : PlotConfig) : Bool :=
  match p.legend with
  | some l => l.visible == some false
  | none => false

/-- `_legend`: the disabled sentinel on the visibility short-circuit,
otherwise the record of assigned keys (each `_.assign` copies its key even
when the props value is `undefined`, so the theme default position written in
`_init` is always overwritten). -/
def _legend (p : PlotConfig) : LegendsSection :=
  if legendDisabled p then LegendsSection.disabled
  else LegendsSection.cfg
    { position := p.legend.bind LegendCfg.position,
      formatter := p.legend.bind LegendCfg.formatter,
      offsetX := p.legend.bind LegendCfg.offsetX,
      offsetY := p.legend.bind LegendCfg.offsetY,
      flipPage := p.legend.bind LegendCfg.flipPage }

/-- The per-field meta entry `_.get(props.meta, field)`. -/
def metaAt (m : Option Meta) (field : String) : Option Style :=
  m.bind fun mm => mm field

/-- The scale-supplement step of `_init`: `_.mapValues` over the variant
scale configurations, replacing each field's entry by `_.assign(\x7b\x7d,
scaleConfig, meta)` when a meta entry exists for that field. -/
def assembleScales (scales : List (String × Style)) (m : Option Meta) :
    List (String × Style) :=
  scales.map fun fs =>
    match metaAt m fs.1 with
    | some mcfg => (fs.1, mixStyle fs.2 mcfg)
    | none => fs

/-- The cumulative theme mutation of one `_init` pass: the three style-block
merges performed by `_title`, `_description` and `_tooltip` on the shared
theme object. -/
def themeAfterInit (p : PlotConfig) (T : Theme) : Theme :=
  { T with
    title := { T.title with style := titleStyleOf p T.title.style },
    description := { T.description with style := descStyleOf p T.description.style },
    tooltip := tooltipStyleOf p T.tooltip }

/-- The assembled `this._config` after one `_init` pass over props `p` with
the theme state `T` at entry to the pass. -/
def buildConfig (v : Variant) (p : PlotConfig) (T : Theme) (w h : ℚ) : G2Config where
  scales := assembleScales (v.scales p) p.meta
  legends := _legend p
  tooltip := _tooltip p
  hooks := v.hooks p
  theme := themeAfterInit p T
  panelRange := _getPanelRange p T w h

/-- `_getViewMargin`, union part: the enclosing box of the existing chrome
boxes (the source folds with infinite seeds, equivalently from the first box),
extended at the bottom by the theme description bottom margin when a
description exists; the zero box when no chrome exists. -/
def viewMarginRaw (tb db : Option BBoxS) (T : Theme) : MarginBox :=
  match tb.toList ++ db.toList with
  | [] => ⟨0, 0, 0, 0⟩
  | b :: rest =>
    let m : MarginBox := rest.foldl
      (fun a x => ⟨qmin a.minX x.minX, qmax a.maxX x.maxX,
                   qmin a.minY x.minY, qmax a.maxY x.maxY⟩)
      ⟨b.minX, b.maxX, b.minY, b.maxY⟩
    if db.isSome then { m with maxY := m.maxY + T.description.bottom_margin } else m

/-- `_getViewMargin`: the union box, with `maxY` clamped to
`canvasHeight - 0.1` when it would reach or exceed the canvas height (the
clamp runs only in the nonempty branch, as in the source). -/
def _getViewMargin (tb db : Option BBoxS) (T : Theme) (canvasHeight : ℚ) : MarginBox :=
  match tb.toList ++ db.toList with
  | [] => ⟨0, 0, 0, 0⟩
  | _ :: _ =>
    let m := viewMarginRaw tb db T
    if canvasHeight ≤ m.maxY then { m with maxY := canvasHeight - 1/10 } else m

/-- Modelled from the spec: `onEvent` (src/util/event.ts, outside src/)
registers each declared function handler on the view under the name resolved
through the event map (falling back to the declared key) and records the
`(type, handler)` pair for later unbinding.  This computes the record list
produced by the `_events` loop; records carry the creating epoch as ghost
data. -/
def eventRecordsOf (v : Variant) (evs : List EventDecl) (epoch : ℕ) : List EventRecord :=
  evs.filterMap fun e =>
    if e.isFn then some ⟨(v.eventMap e.name).getD e.key, e.handler, epoch⟩ else none

/-- One `_init` pass (without the `_description` crash check, see
`_initPass`): rebuild `this._config`, mutate the shared theme, create the
title / description chrome, create a fresh drawable view (new epoch, no
bound handlers) positioned below the view margin, and bind the declared
events via `onEvent`, which records each binding in `eventHandlers`. -/
def initResult (v : Variant) (s : PlotState) : PlotState :=
  let p := s.props
  let range := _getPanelRange p s.theme s.canvasW s.canvasH
  let tb := titleBoxOf p s.theme range
  let db := descBoxOf p s.theme range tb
  let T3 := themeAfterInit p s.theme
  let vm := _getViewMargin tb db T3 s.canvasH
  let e2 := s.epoch + 1
  let recs := eventRecordsOf v (p.events.getD []) e2
  { s with
    theme := T3,
    config := buildConfig v p s.theme s.canvasW s.canvasH,
    title := tb,
    description := db,
    epoch := e2,
    view := { epoch := e2, bound := recs, destroyedV := false,
              data := p.data, renders := 0, startY := vm.maxY },
    eventHandlers := s.eventHandlers ++ recs }

/-- `_init`: throws a TypeError when `_description` dereferences the absent
title config, otherwise produces the rebuilt state. -/
def _initPass (v : Variant) (s : PlotState) : Except Err PlotState :=
  if descCrash s.props then Except.error Err.typeError
  else Except.ok (initResult v s)

/-- `plot.off(type, handler)` for every record of `this.eventHandlers`, as
performed by both `destroy` and `updateConfig`: each `off` removes every
binding matching the record's type and handler. -/
def offAll (hs : List EventRecord) (bound : List EventRecord) : List EventRecord :=
  hs.foldl
    (fun acc hrec =>
      acc.filter fun b => !(b.type == hrec.type && b.handler == hrec.handler))
    bound

/-- The padding-forcing rule at the top of `updateConfig`: when the partial
update omits `padding` but the original snapshot specified the "auto" marker,
force `padding: "auto"` back into the partial. -/
def forcePadding (orig : PlotConfig) (cfg : PlotConfig) : PlotConfig :=
  if cfg.padding = none && orig.padding == some Padding.auto then
    { cfg with padding := some Padding.auto }
  else cfg

/-- A partial configuration carrying only a padding value, as passed by
`_afterInit` (`this.updateConfig(\x7b padding \x7d)`). -/
def paddingOnly (pd : Padding) : PlotConfig :=
  { emptyConfig with padding := some pd }

/-- The teardown-and-remerge half of `updateConfig`: unbind every recorded
handler from the view, destroy the view, dispose the chrome, and install the
deep-merged working configuration. -/
def teardownSet (s : PlotState) (newProps : PlotConfig) : PlotState :=
  { s with
    props := newProps,
    view := { s.view with
      bound := offAll s.eventHandlers s.view.bound,
      destroyedV := true } }

/-- The auto-padding measurement of `_afterInit`: `getAutoPadding(this.plot,
this.paddingComponents, theme.defaultPadding)` measured on the provisional
layout — the chrome boxes plus the registered padding participants. -/
def autoPadOf (s : PlotState) : PaddingQuad :=
  getAutoPadding (s.title.toList ++ s.description.toList ++ s.paddingComponents)
    s.theme.defaultPadding

/-- The provisional measurement render (`this.plot.render(false)`) and the
ghost measurement-pass counter bump performed when `_afterInit` triggers. -/
def bumpForAuto (t : PlotState) : PlotState :=
  { t with
    measurePasses := t.measurePasses + 1,
    view := { t.view with renders := t.view.renders + 1 } }

/-- `updateConfig(cfg)`: apply the padding-forcing rule, deep-merge the
partial into the working configuration, tear the old epoch down, re-run
`_init`, then re-run `_afterInit` — which, when the merged padding resolves
to the "auto" marker, performs a provisional render, measures, and re-enters
`updateConfig` with the concrete measured padding.  `fuel` bounds that
re-entrance; fuel 2 suffices (see the C10 theorem). -/
def updateConfigF (v : Variant) : ℕ → PlotState → PlotConfig → Except Err PlotState
  | 0, _, _ => Except.error Err.fuelExhausted
  | n + 1, s, cfg =>
    let cfg2 := forcePadding s.originalProps cfg
    let newProps := deepMixCfg s.props cfg2
    match _initPass v (teardownSet s newProps) with
    | Except.error e => Except.error e
    | Except.ok t =>
      if resolvedPadding t.props t.theme = Padding.auto then
        updateConfigF v n (bumpForAuto t) (paddingOnly (Padding.tuple (autoPadOf t)))
      else Except.ok t

/-- The state right after the constructor stores the configs and provisions
the collaborators, before `_init` runs: `_initialProps` aliases the given
config and `_originalProps` is its deep, independent snapshot. -/
def initialState (w h : ℚ) (T : Theme) (cfg : PlotConfig) : PlotState :=
  { props := cfg,
    originalProps := deepMixCfg emptyConfig cfg,
    theme := T,
    config := { scales := [], legends := .disabled, tooltip := .disabled,
                hooks := 0, theme := T, panelRange := ⟨0, 0, 0, 0⟩ },
    eventHandlers := [], paddingComponents := [],
    view := {}, title := none, description := none, destroyed := false,
    epoch := 0, measurePasses := 0, canvasW := w, canvasH := h }

/-- The constructor: `_beforeInit` (a no-op in the base class), `_init`, then
`_afterInit`, which on an effective "auto" padding performs the provisional
render, measures, and calls `updateConfig` with the measured tuple. -/
def constructF (v : Variant) (fuel : ℕ) (w h : ℚ) (T : Theme) (cfg : PlotConfig) :
    Except Err PlotState :=
  match _initPass v (initialState w h T cfg) with
  | Except.error e => Except.error e
  | Except.ok t =>
    if resolvedPadding t.props t.theme = Padding.auto then
      updateConfigF v fuel (bumpForAuto t) (paddingOnly (Padding.tuple (autoPadOf t)))
    else Except.ok t

/-- `destroy()`: dispose the canvas collaborator, `plot.off` every recorded
handler, dispose the chrome, detach the canvas surface, destroy the view, and
mark the instance destroyed.  No operation ever checks the flag. -/
def destroy (s : PlotState) : PlotState :=
  { s with
    destroyed := true,
    view := { s.view with
      bound := offAll s.eventHandlers s.view.bound,
      destroyedV := true } }

/-- `changeData(data)`: delegates directly to `this.plot.changeData(data)`
with no lifecycle check. -/
def changeData (s : PlotState) (d : List DataRow) : Except Err PlotState :=
  Except.ok { s with view := { s.view with data := some d } }

/-- `render()`: a full draw pass when `this._initialProps.data` is non-empty
(`_.isEmpty`), a no-op otherwise; again with no lifecycle check. -/
def render (s : PlotState) : Except Err PlotState :=
  match s.props.data with
  | some ds =>
    if ds.isEmpty then Except.ok s
    else Except.ok { s with view := { s.view with renders := s.view.renders + 1 } }
  | none => Except.ok s

/-- `resgiterPadding(component)` (source spelling): opt a component's box
into the auto-padding measurement set. -/
def resgiterPadding (s : PlotState) (c : BBoxS) : PlotState :=
  { s with paddingComponents := s.paddingComponents ++ [c] }

/-- Every record currently bound on the view was created through `onEvent`
and hence recorded in `this.eventHandlers` — the binder contract. -/
def BoundRecorded (s : PlotState) : Prop :=
  ∀ r ∈ s.view.bound, r ∈ s.eventHandlers

/-- Extract the state of a successful lifecycle step (used only to name
concrete states in closed statements). -/
def getOk (e : Except Err PlotState) : PlotState :=
  match e with
  | Except.ok s => s
  | Except.error _ => default

/-- Lookup of a field's entry in a scales association list (first match, as
`this._config.scales[field]`). -/
def lookupField (f : String) (l : List (String × Style)) : Option Style :=
  (l.find? fun x => x.1 == f).map Prod.snd

/-- A trivial chart variant: no scale contributions, no hook sections, an
empty event map.  Used to instantiate closed statements. -/
def v0 : Variant where
  scales := fun _ => []
  hooks := fun _ => 0
  eventMap := fun _ => none

/-- The auto-padding measurement as a function of the inputs of an `_init`
pass: the chrome boxes measured on the provisional layout plus the registered
padding participants, enveloped and floored by the theme default padding. -/
def measuredAutoPad (p : PlotConfig) (T : Theme) (w h : ℚ) (comps : List BBoxS) :
    PaddingQuad :=
  let range := _getPanelRange p T w h
  let tb := titleBoxOf p T range
  let db := descBoxOf p T range tb
  getAutoPadding (tb.toList ++ db.toList ++ comps) T.defaultPadding

/-- A configuration with its padding field replaced. -/
def withPadding (c : PlotConfig) (pd : Padding) : PlotConfig :=
  { c with padding := some pd }

/-- A concrete construction with explicit "auto" padding (used in closed
statements). -/
def c10cfg : PlotConfig := { padding := some Padding.auto }

/-- The instance constructed from `c10cfg`. -/
def c10s : PlotState := getOk (constructF v0 2 100 100 {} c10cfg)

/-- The instance after an empty update of `c10s`. -/
def c2s2 : PlotState := getOk (updateConfigF v0 2 c10s emptyConfig)

/-- A configuration declaring one event handler (used in closed statements). -/
def c1cfg : PlotConfig :=
  { events := some [{ key := "click", name := "onPlotClick", handler := 5, isFn := true }] }

/-- The instance constructed from `c1cfg` (one bound handler record). -/
def c1s : PlotState := getOk (constructF v0 2 100 100 {} c1cfg)

/-- The instance after an empty update of `c1s`. -/
def c1s2 : PlotState := getOk (updateConfigF v0 2 c1s emptyConfig)

/-- A destroyed concrete instance (used in closed statements). -/
def c7s : PlotState := destroy (getOk (constructF v0 2 100 100 {} {}))

/-- Application of an optional style override to a style block: the common
shape of the `_.mix(theme.block, props.block.style)` mutations. -/
def styleApp (o : Option Style) (s : Style) : Style :=
  match o with
  | some S => mixStyle s S
  | none => s

/-- Side condition under which the shared-theme tooltip mutation commutes
with re-initialisation on merged props: if the merged configuration disables
the tooltip, the original configuration must not have merged a tooltip style
(the source performs that merge once and never undoes it). -/
def tooltipMergeCompatible (a b : PlotConfig) : Prop :=
  tooltipDisabled (deepMixCfg a b) = true →
    (tooltipDisabled a = true ∨ a.tooltip.bind TooltipCfg.style = none)

/-- Side condition ruling out the theme-supplied "auto" padding that escapes
the original-snapshot recall rule of `updateConfig`: either the construction
config records its own padding, or the theme default is not "auto". -/
def paddingRecallSound (cfg : PlotConfig) (T : Theme) : Prop :=
  cfg.padding ≠ none ∨ T.padding ≠ Padding.auto

/-- Round-trip witness states (trivial config). -/
def c8wS1 : PlotState := getOk (constructF v0 2 50 50 {} emptyConfig)

/-- Round-trip witness: after an empty update. -/
def c8wS2 : PlotState := getOk (updateConfigF v0 2 c8wS1 emptyConfig)

/-- Round-trip witness: direct construction from the merged config. -/
def c8wS3 : PlotState := getOk (constructF v0 2 50 50 {} (deepMixCfg emptyConfig emptyConfig))

/-- Round-trip counterexample (theme-auto scenario): a partial update adding
a title. -/
def c8aCfg2 : PlotConfig := { title := some { text := some "T" } }

/-- Round-trip counterexample: a theme whose default padding is "auto". -/
def c8aTheme : Theme :=
  { padding := Padding.auto, defaultPadding := ⟨1, 1, 1, 1⟩, title := { top_margin := 2 } }

/-- Theme-auto scenario: constructed state. -/
def c8aS1 : PlotState := getOk (constructF v0 2 100 100 c8aTheme emptyConfig)

/-- Theme-auto scenario: state after the title-adding update. -/
def c8aS2 : PlotState := getOk (updateConfigF v0 2 c8aS1 c8aCfg2)

/-- Theme-auto scenario: state from direct merged construction. -/
def c8aS3 : PlotState := getOk (constructF v0 2 100 100 c8aTheme (deepMixCfg emptyConfig c8aCfg2))

/-- Round-trip counterexample (tooltip-toggle scenario): original config with
a tooltip style. -/
def c8bCfg : PlotConfig :=
  { tooltip := some { style := some fun k => if k = "fill" then some 1 else none } }

/-- Tooltip-toggle scenario: partial update disabling the tooltip. -/
def c8bCfg2 : PlotConfig := { tooltip := some { visible := some false } }

/-- Tooltip-toggle scenario: constructed state. -/
def c8bS1 : PlotState := getOk (constructF v0 2 100 100 {} c8bCfg)

/-- Tooltip-toggle scenario: state after the disabling update. -/
def c8bS2 : PlotState := getOk (updateConfigF v0 2 c8bS1 c8bCfg2)

/-- Tooltip-toggle scenario: state from direct merged construction. -/
def c8bS3 : PlotState := getOk (constructF v0 2 100 100 {} (deepMixCfg c8bCfg c8bCfg2))

/-! ### Supporting lemmas -/

lemma mixStyle_self_absorb (t a : Style) : mixStyle (mixStyle t a) a = mixStyle t a := by
  funext k
  unfold mixStyle
  cases h : a k <;> simp [h]

lemma mixStyle_absorb (t a b : Style) :
    mixStyle (mixStyle t a) (mixStyle a b) = mixStyle t (mixStyle a b) := by
  funext k
  unfold mixStyle
  cases hb : b k <;> cases ha : a k <;> simp [hb, ha]

lemma mergeOpt_none_right {α : Type} (a : Option α) : mergeOpt a none = a := rfl

lemma mergeOpt_none_left {α : Type} (b : Option α) : mergeOpt none b = b := by
  cases b <;> rfl

lemma mergeObjOpt_none_right {α : Type} (f : α → α → α) (a : Option α) :
    mergeObjOpt f a none = a := by
  cases a <;> rfl

lemma mergeObjOpt_none_left {α : Type} (f : α → α → α) (b : Option α) :
    mergeObjOpt f none b = b := by
  cases b <;> rfl

lemma deepMixCfg_empty_left (c : PlotConfig) : deepMixCfg emptyConfig c = c := by
  rcases c with ⟨d, p, t, ds, tt, l, m, e⟩
  simp [deepMixCfg, emptyConfig, mergeOpt_none_left, mergeObjOpt_none_left]

lemma deepMixCfg_empty_right (c : PlotConfig) : deepMixCfg c emptyConfig = c := by
  rcases c with ⟨d, p, t, ds, tt, l, m, e⟩
  simp [deepMixCfg, emptyConfig, mergeOpt_none_right, mergeObjOpt_none_right]

lemma deepMixCfg_paddingOnly (c : PlotConfig) (pd : Padding) :
    deepMixCfg c (paddingOnly pd) = withPadding c pd := by
  rcases c with ⟨d, p, t, ds, tt, l, m, e⟩
  simp [deepMixCfg, paddingOnly, withPadding, emptyConfig, mergeOpt_none_right, mergeOpt,
    mergeObjOpt_none_right]

lemma offAll_eq_nil (hs bound : List EventRecord)
    (h : ∀ b ∈ bound, ∃ r ∈ hs, r.type = b.type ∧ r.handler = b.handler) :
    offAll hs bound = [] := by
  induction hs generalizing bound with
  | nil =>
    cases bound with
    | nil => rfl
    | cons b bs =>
      obtain ⟨r, hr, _⟩ := h b (List.mem_cons_self b bs)
      exact absurd hr (List.not_mem_nil r)
  | cons hd tl ih =>
    simp only [offAll, List.foldl_cons] at *
    apply ih
    intro b hb
    rw [List.mem_filter] at hb
    obtain ⟨hbm, hpred⟩ := hb
    obtain ⟨r, hr, hty, hh⟩ := h b hbm
    rcases List.mem_cons.mp hr with hhd | htl
    · exfalso
      subst hhd
      simp [hty.symm, hh.symm] at hpred
    · exact ⟨r, htl, hty, hh⟩

lemma eventRecordsOf_epoch (v : Variant) (evs : List EventDecl) (e : ℕ) :
    ∀ r ∈ eventRecordsOf v evs e, r.epoch = e := by
  intro r hr
  simp only [eventRecordsOf, List.mem_filterMap] at hr
  obtain ⟨a, _, ha⟩ := hr
  split at ha
  · cases ha
    rfl
  · cases ha

lemma initPass_ok (v : Variant) (s t : PlotState)
    (h : _initPass v s = Except.ok t) :
    descCrash s.props = false ∧ t = initResult v s := by
  unfold _initPass at h
  split at h
  · cases h
  · cases h
    exact ⟨by simpa using ‹¬descCrash s.props = true›, rfl⟩

lemma updateConfigF_succ (v : Variant) (n : ℕ) (s : PlotState) (cfg : PlotConfig) :
    updateConfigF v (n + 1) s cfg =
      match _initPass v (teardownSet s (deepMixCfg s.props (forcePadding s.originalProps cfg))) with
      | Except.error e => Except.error e
      | Except.ok t =>
        if resolvedPadding t.props t.theme = Padding.auto then
          updateConfigF v n (bumpForAuto t) (paddingOnly (Padding.tuple (autoPadOf t)))
        else Except.ok t := rfl

lemma update_bound_epoch (v : Variant) :
    ∀ (fuel : ℕ) (s : PlotState) (cfg : PlotConfig) (s2 : PlotState),
      updateConfigF v fuel s cfg = Except.ok s2 →
      ∀ r ∈ s2.view.bound, r.epoch = s2.epoch := by
  intro fuel
  induction fuel with
  | zero =>
    intro s cfg s2 h
    cases h
  | succ n ih =>
    intro s cfg s2 h
    rw [updateConfigF_succ] at h
    cases hinit : _initPass v (teardownSet s (deepMixCfg s.props (forcePadding s.originalProps cfg))) with
    | error e =>
      rw [hinit] at h
      cases h
    | ok t =>
      rw [hinit] at h
      dsimp only at h
      obtain ⟨hcrash, ht⟩ := initPass_ok v _ _ hinit
      by_cases hres : resolvedPadding t.props t.theme = Padding.auto
      · rw [if_pos hres] at h
        exact ih _ _ _ h
      · rw [if_neg hres] at h
        cases h
        subst ht
        intro r hr
        exact eventRecordsOf_epoch v _ _ r hr

lemma update_no_destroyed_signal (v : Variant) :
    ∀ (fuel : ℕ) (s : PlotState) (cfg : PlotConfig),
      updateConfigF v fuel s cfg ≠ Except.error Err.instanceDestroyed := by
  intro fuel
  induction fuel with
  | zero =>
    intro s cfg h
    cases h
  | succ n ih =>
    intro s cfg h
    rw [updateConfigF_succ] at h
    cases hinit : _initPass v (teardownSet s (deepMixCfg s.props (forcePadding s.originalProps cfg))) with
    | error e =>
      rw [hinit] at h
      unfold _initPass at hinit
      split at hinit
      · cases hinit
        cases h
      · cases hinit
    | ok t =>
      rw [hinit] at h
      dsimp only at h
      by_cases hres : resolvedPadding t.props t.theme = Padding.auto
      · rw [if_pos hres] at h
        exact ih _ _ h
      · rw [if_neg hres] at h
        cases h

lemma lookupField_assembleScales (f : String) (scales : List (String × Style))
    (m : Option Meta) (sc : Style) (hsc : lookupField f scales = some sc) :
    lookupField f (assembleScales scales m) =
      some (match metaAt m f with
            | some mcfg => mixStyle sc mcfg
            | none => sc) := by
  induction scales with
  | nil => simp [lookupField] at hsc
  | cons hd tl ih =>
    by_cases hf : hd.1 == f
    · have hf2 : hd.1 = f := by simpa using hf
      have hsc2 : sc = hd.2 := by
        simp [lookupField, List.find?_cons, hf] at hsc
        exact hsc.symm
      subst hsc2
      subst hf2
      cases hmeta : metaAt m hd.1 with
      | none =>
        simp [lookupField, assembleScales, List.find?_cons, hmeta]
      | some mcfg =>
        simp [lookupField, assembleScales, List.find?_cons, hmeta]
    · have hsc2 : lookupField f tl = some sc := by
        simpa [lookupField, List.find?_cons, hf] using hsc
      have := ih hsc2
      cases hmeta : metaAt m hd.1 with
      | none =>
        simpa [lookupField, assembleScales, List.find?_cons, hf, hmeta]
          using this
      | some mcfg =>
        simpa [lookupField, assembleScales, List.find?_cons, hf, hmeta]
          using this

lemma getViewMargin_nonempty (tb db : Option BBoxS) (T : Theme) (h : ℚ)
    (hne : tb.isSome ∨ db.isSome) :
    _getViewMargin tb db T h =
      if h ≤ (viewMarginRaw tb db T).maxY
      then { viewMarginRaw tb db T with maxY := h - 1 / 10 }
      else viewMarginRaw tb db T := by
  cases tb with
  | none =>
    cases db with
    | none => rcases hne with h1 | h1 <;> simp at h1
    | some b => rfl
  | some a =>
    cases db with
    | none => rfl
    | some b => rfl

/-! ### Claim theorems -/

/-- C3: for every combination of title/description boxes and every positive
canvas height, the view margin's `maxY` is strictly below the canvas height;
with no chrome the zero box is returned, and whenever the raw union `maxY`
(including the description bottom margin) reaches or exceeds the canvas
height it is clamped to `canvasHeight - 0.1`. -/
theorem viewMargin_maxY_clamped (tb db : Option BBoxS) (T : Theme) (h : ℚ)
    (hp : 0 < h) :
    (_getViewMargin tb db T h).maxY < h ∧
    (tb = none → db = none → _getViewMargin tb db T h = ⟨0, 0, 0, 0⟩) ∧
    ((tb.isSome ∨ db.isSome) → h ≤ (viewMarginRaw tb db T).maxY →
      (_getViewMargin tb db T h).maxY = h - 1 / 10) := by
  refine ⟨?_, ?_, ?_⟩
  · by_cases hne : tb.isSome ∨ db.isSome
    · rw [getViewMargin_nonempty tb db T h hne]
      split_ifs with hc
      · show h - 1 / 10 < h
        linarith
      · push_neg at hc
        exact hc
    · push_neg at hne
      obtain ⟨h1, h2⟩ := hne
      have h1b : tb = none := by
        cases tb
        · rfl
        · simp at h1
      have h2b : db = none := by
        cases db
        · rfl
        · simp at h2
      subst h1b
      subst h2b
      simpa [_getViewMargin] using hp
  · intro h1 h2
    subst h1
    subst h2
    rfl
  · intro hne hle
    rw [getViewMargin_nonempty tb db T h hne, if_pos hle]

/-- Witness for C3 at a concrete input. -/
theorem viewMargin_maxY_clamped_witness :
    (0 : ℚ) < 5 ∧ (_getViewMargin none none {} 5).maxY < 5 :=
  ⟨by norm_num, (viewMargin_maxY_clamped none none {} 5 (by norm_num)).1⟩

/-- C4: when `tooltip.visible === false`, the assembled tooltip section is
the disabled sentinel and no tooltip style is merged into the theme tooltip
block, even if a style is supplied — the toggle is a short-circuit. -/
theorem tooltip_disabled_short_circuit (p : PlotConfig) (tt : TooltipCfg) (s : Style)
    (hp : p.tooltip = some tt) (hv : tt.visible = some false) :
    _tooltip p = TooltipSection.disabled ∧ tooltipStyleOf p s = s := by
  have hd : tooltipDisabled p = true := by simp [tooltipDisabled, hp, hv]
  exact ⟨by simp [_tooltip, hd], by simp [tooltipStyleOf, hd]⟩

/-- Witness for C4: a config with `visible: false` and a supplied style. -/
theorem tooltip_disabled_short_circuit_witness :
    ({ tooltip := some { visible := some false, style := some fun _ => some 1 } }
        : PlotConfig).tooltip =
      some { visible := some false, style := some fun _ => some 1 } ∧
    (_tooltip { tooltip := some { visible := some false, style := some fun _ => some 1 } } =
        TooltipSection.disabled ∧
      tooltipStyleOf
        { tooltip := some { visible := some false, style := some fun _ => some 1 } }
        emptyStyle = emptyStyle) :=
  ⟨rfl, tooltip_disabled_short_circuit _ _ emptyStyle rfl rfl⟩

/-- C5: for a concrete non-negative padding 4-tuple the panel range is
`BBox(left, top, w - left - right, h - top - bottom)`, non-negative whenever
the canvas exceeds the padding sums; and an "auto" spec resolves to the
neutral quad for the provisional pass. -/
theorem panelRange_formula :
    (∀ (p : PlotConfig) (T : Theme) (w h : ℚ) (q : PaddingQuad),
      p.padding = some (Padding.tuple q) →
      0 ≤ q.top → 0 ≤ q.right → 0 ≤ q.bottom → 0 ≤ q.left →
      _getPanelRange p T w h =
        ⟨q.left, q.top, w - q.left - q.right, h - q.top - q.bottom⟩ ∧
      (q.left + q.right ≤ w → 0 ≤ (_getPanelRange p T w h).width) ∧
      (q.top + q.bottom ≤ h → 0 ≤ (_getPanelRange p T w h).height)) ∧
    (∀ (p : PlotConfig) (T : Theme), resolvedPadding p T = Padding.auto →
      _getPadding p T = ⟨0, 0, 0, 0⟩) := by
  constructor
  · intro p T w h q hq _ _ _ _
    have hpad : _getPadding p T = q := by
      simp [_getPadding, resolvedPadding, hq]
    refine ⟨by simp [_getPanelRange, hpad], ?_, ?_⟩
    · intro hw
      simp only [_getPanelRange, hpad]
      show (0 : ℚ) ≤ w - q.left - q.right
      linarith
    · intro hh
      simp only [_getPanelRange, hpad]
      show (0 : ℚ) ≤ h - q.top - q.bottom
      linarith
  · intro p T hauto
    simp [_getPadding, hauto]

/-- Witness for C5 at concrete inputs. -/
theorem panelRange_formula_witness :
    _getPanelRange { padding := some (Padding.tuple ⟨1, 2, 3, 4⟩) } {} 10 10 =
      ⟨4, 1, 10 - 4 - 2, 10 - 1 - 3⟩ ∧
    _getPadding {} { padding := Padding.auto } = ⟨0, 0, 0, 0⟩ :=
  ⟨(panelRange_formula.1 _ {} 10 10 ⟨1, 2, 3, 4⟩ rfl (by norm_num) (by norm_num)
      (by norm_num) (by norm_num)).1,
    panelRange_formula.2 {} { padding := Padding.auto } rfl⟩

/-- C6: a field with both a variant scale config and a meta entry gets the
variant config overridden key-by-key by the meta entry (meta applied last,
so per-field metadata wins); fields without a meta entry are unchanged. -/
theorem meta_overrides_scales (scales : List (String × Style)) (m : Option Meta)
    (f : String) (sc : Style) (hsc : lookupField f scales = some sc) :
    (∀ mcfg, metaAt m f = some mcfg →
      lookupField f (assembleScales scales m) = some (mixStyle sc mcfg) ∧
      (∀ k vv, mcfg k = some vv → mixStyle sc mcfg k = some vv) ∧
      (∀ k, mcfg k = none → mixStyle sc mcfg k = sc k)) ∧
    (metaAt m f = none → lookupField f (assembleScales scales m) = some sc) := by
  constructor
  · intro mcfg hm
    refine ⟨?_, ?_, ?_⟩
    · rw [lookupField_assembleScales f scales m sc hsc, hm]
    · intro k vv hv
      simp [mixStyle, hv]
    · intro k hk
      simp [mixStyle, hk]
  · intro hm
    rw [lookupField_assembleScales f scales m sc hsc, hm]

/-- Witness for C6 at a concrete scales list and meta dictionary. -/
theorem meta_overrides_scales_witness :
    lookupField "x" [("x", fun _ => some 3)] = some (fun _ => some 3) ∧
    metaAt (some fun _ => some fun _ => some 7) "x" = some (fun _ => some 7) ∧
    lookupField "x"
        (assembleScales [("x", fun _ => some 3)] (some fun _ => some fun _ => some 7)) =
      some (mixStyle (fun _ => some 3) (fun _ => some 7)) :=
  ⟨rfl, rfl,
    ((meta_overrides_scales [("x", fun _ => some 3)] (some fun _ => some fun _ => some 7)
        "x" (fun _ => some 3) rfl).1 (fun _ => some 7) rfl).1⟩

/-- C9: a configuration with a description but no title makes `_description`
dereference the absent title config (`props.title.alignWithAxis`), so
construction throws a TypeError instead of producing an instance. -/
theorem description_requires_title (v : Variant) (fuel : ℕ) (w h : ℚ) (T : Theme)
    (cfg : PlotConfig) (hd : cfg.description.isSome) (ht : cfg.title = none) :
    constructF v fuel w h T cfg = Except.error Err.typeError := by
  have hcrash : descCrash cfg = true := by
    simp [descCrash, ht]
    exact hd
  simp [constructF, _initPass, hcrash, initialState]

/-- Witness for C9: a description-only config crashes construction. -/
theorem description_requires_title_witness :
    ({ description := some { text := some "d" } } : PlotConfig).description.isSome = true ∧
    constructF v0 2 10 10 {} { description := some { text := some "d" } } =
      Except.error Err.typeError :=
  ⟨rfl, description_requires_title v0 2 10 10 {} _ rfl rfl⟩

/-! ### Lifecycle projection lemmas (all definitional) -/

lemma initialState_props (w h : ℚ) (T : Theme) (cfg : PlotConfig) :
    (initialState w h T cfg).props = cfg := rfl

lemma initResult_props (v : Variant) (s : PlotState) :
    (initResult v s).props = s.props := rfl

lemma initResult_theme (v : Variant) (s : PlotState) :
    (initResult v s).theme = themeAfterInit s.props s.theme := rfl

lemma initResult_config (v : Variant) (s : PlotState) :
    (initResult v s).config = buildConfig v s.props s.theme s.canvasW s.canvasH := rfl

lemma initResult_measurePasses (v : Variant) (s : PlotState) :
    (initResult v s).measurePasses = s.measurePasses := rfl

lemma autoPadOf_initResult (v : Variant) (s : PlotState) :
    autoPadOf (initResult v s) =
      measuredAutoPad s.props s.theme s.canvasW s.canvasH s.paddingComponents := rfl

lemma themeAfterInit_padding (p : PlotConfig) (T : Theme) :
    (themeAfterInit p T).padding = T.padding := rfl

lemma measuredAutoPad_TA (p q : PlotConfig) (T : Theme) (w h : ℚ) (comps : List BBoxS) :
    measuredAutoPad p (themeAfterInit q T) w h comps = measuredAutoPad p T w h comps := rfl

lemma initPass_of_no_crash (v : Variant) (s : PlotState) (h : descCrash s.props = false) :
    _initPass v s = Except.ok (initResult v s) := by
  unfold _initPass
  rw [h]
  simp

lemma forcePadding_some (o c : PlotConfig) (x : Padding) (h : c.padding = some x) :
    forcePadding o c = c := by
  unfold forcePadding
  simp [h]

lemma forcePadding_forced (o c : PlotConfig) (hc : c.padding = none)
    (ho : o.padding = some Padding.auto) :
    forcePadding o c = withPadding c Padding.auto := by
  unfold forcePadding withPadding
  simp [hc, ho]

lemma resolvedPadding_some (p : PlotConfig) (T : Theme) (x : Padding)
    (h : p.padding = some x) : resolvedPadding p T = x := by
  unfold resolvedPadding
  rw [h]
  rfl

lemma setPadding_self (c : PlotConfig) (x : Padding) (h : c.padding = some x) :
    withPadding c x = c := by
  unfold withPadding
  rcases c with ⟨d, p, t, ds, tt, l, m, e⟩
  cases h
  rfl

lemma updateConfigF_no_trigger (v : Variant) (n : ℕ) (s : PlotState) (cfg : PlotConfig)
    (t : PlotState)
    (hinit : _initPass v
      (teardownSet s (deepMixCfg s.props (forcePadding s.originalProps cfg))) =
      Except.ok t)
    (hres : resolvedPadding t.props t.theme ≠ Padding.auto) :
    updateConfigF v (n + 1) s cfg = Except.ok t := by
  rw [updateConfigF_succ, hinit]
  dsimp only
  rw [if_neg hres]

lemma construct_auto_trace (v : Variant) (w h : ℚ) (T : Theme) (cfg : PlotConfig)
    (hcrash : descCrash cfg = false) (hauto : resolvedPadding cfg T = Padding.auto)
    (n : ℕ) :
    constructF v (n + 2) w h T cfg =
      Except.ok (initResult v (teardownSet
        (bumpForAuto (initResult v (initialState w h T cfg)))
        (withPadding cfg (Padding.tuple (autoPadOf (initResult v (initialState w h T cfg))))))) := by
  have hinit : _initPass v (initialState w h T cfg) =
      Except.ok (initResult v (initialState w h T cfg)) :=
    initPass_of_no_crash v _ hcrash
  unfold constructF
  rw [hinit]
  dsimp only
  have hres : resolvedPadding (initResult v (initialState w h T cfg)).props
      (initResult v (initialState w h T cfg)).theme = Padding.auto := hauto
  rw [if_pos hres]
  have hforce : forcePadding (bumpForAuto (initResult v (initialState w h T cfg))).originalProps
      (paddingOnly (Padding.tuple (autoPadOf (initResult v (initialState w h T cfg))))) =
      paddingOnly (Padding.tuple (autoPadOf (initResult v (initialState w h T cfg)))) :=
    forcePadding_some _ _ _ rfl
  have hmerge : deepMixCfg (bumpForAuto (initResult v (initialState w h T cfg))).props
      (paddingOnly (Padding.tuple (autoPadOf (initResult v (initialState w h T cfg))))) =
      withPadding cfg (Padding.tuple (autoPadOf (initResult v (initialState w h T cfg)))) :=
    deepMixCfg_paddingOnly cfg _
  have hinit2 : _initPass v (teardownSet
      (bumpForAuto (initResult v (initialState w h T cfg)))
      (deepMixCfg (bumpForAuto (initResult v (initialState w h T cfg))).props
        (forcePadding (bumpForAuto (initResult v (initialState w h T cfg))).originalProps
          (paddingOnly (Padding.tuple (autoPadOf (initResult v (initialState w h T cfg)))))))) =
      Except.ok (initResult v (teardownSet
        (bumpForAuto (initResult v (initialState w h T cfg)))
        (withPadding cfg (Padding.tuple (autoPadOf (initResult v (initialState w h T cfg))))))) := by
    rw [hforce, hmerge]
    exact initPass_of_no_crash v _ hcrash
  exact updateConfigF_no_trigger v (n + 1) _ _ _ hinit2
    (by
      rw [resolvedPadding_some _ _
        (Padding.tuple (autoPadOf (initResult v (initialState w h T cfg)))) rfl]
      intro hcon
      cases hcon)

lemma construct_ok_no_crash (v : Variant) (fuel : ℕ) (w h : ℚ) (T : Theme)
    (cfg : PlotConfig) (s : PlotState)
    (hok : constructF v fuel w h T cfg = Except.ok s) : descCrash cfg = false := by
  by_contra hc
  rw [Bool.not_eq_false] at hc
  unfold constructF _initPass at hok
  rw [initialState_props, hc] at hok
  simp at hok

/-- C10: a construction whose padding resolves to "auto" performs exactly one
additional measurement pass: the re-entered `_afterInit` sees a concrete
padding, so there is no further recursion, and any extra recursion fuel
yields the same final state. -/
theorem auto_padding_single_pass (v : Variant) (w h : ℚ) (T : Theme) (cfg : PlotConfig)
    (s : PlotState) (hauto : resolvedPadding cfg T = Padding.auto)
    (hok : constructF v 2 w h T cfg = Except.ok s) :
    s.measurePasses = 1 ∧
    resolvedPadding s.props s.theme ≠ Padding.auto ∧
    ∀ n : ℕ, constructF v (n + 2) w h T cfg = Except.ok s := by
  have hcrash : descCrash cfg = false := construct_ok_no_crash v 2 w h T cfg s hok
  have htrace := construct_auto_trace v w h T cfg hcrash hauto
  have h0 : constructF v 2 w h T cfg =
      Except.ok (initResult v (teardownSet
        (bumpForAuto (initResult v (initialState w h T cfg)))
        (withPadding cfg (Padding.tuple (autoPadOf (initResult v (initialState w h T cfg))))))) :=
    htrace 0
  rw [h0] at hok
  injection hok with hs
  subst hs
  refine ⟨rfl, ?_, ?_⟩
  · rw [resolvedPadding_some _ _
      (Padding.tuple (autoPadOf (initResult v (initialState w h T cfg)))) rfl]
    intro hcon
    cases hcon
  · intro n
    exact htrace n

/-- Witness for C10: a construction with "auto" padding makes exactly one
measurement pass. -/
theorem auto_padding_single_pass_witness :
    resolvedPadding c10cfg ({} : Theme) = Padding.auto ∧
    constructF v0 2 100 100 {} c10cfg = Except.ok c10s ∧
    c10s.measurePasses = 1 :=
  ⟨rfl, rfl, (auto_padding_single_pass v0 100 100 {} c10cfg c10s rfl rfl).1⟩

/-- C2: on an instance originally constructed with `padding: "auto"`, every
partial update that omits `padding` has `padding: "auto"` forced back into it
by the forcing rule, and in particular the empty update performs the
auto-padding measurement pass again and ends with the same final padding as
the original construction (unchanged data and theme). -/
theorem updateConfig_preserves_auto (v : Variant) (w h : ℚ) (T : Theme)
    (cfg : PlotConfig) (s1 s2 : PlotState) (hpad : cfg.padding = some Padding.auto)
    (h1 : constructF v 2 w h T cfg = Except.ok s1)
    (h2 : updateConfigF v 2 s1 emptyConfig = Except.ok s2) :
    (∀ cfg2 : PlotConfig, cfg2.padding = none →
      (forcePadding s1.originalProps cfg2).padding = some Padding.auto) ∧
    s2.measurePasses = s1.measurePasses + 1 ∧
    s2.props.padding = s1.props.padding := by
  have hcrash : descCrash cfg = false := construct_ok_no_crash v 2 w h T cfg s1 h1
  have hauto : resolvedPadding cfg T = Padding.auto := resolvedPadding_some _ _ _ hpad
  have h0 : constructF v 2 w h T cfg =
      Except.ok (initResult v (teardownSet
        (bumpForAuto (initResult v (initialState w h T cfg)))
        (withPadding cfg (Padding.tuple (autoPadOf (initResult v (initialState w h T cfg))))))) :=
    construct_auto_trace v w h T cfg hcrash hauto 0
  rw [h0] at h1
  injection h1 with hs
  subst hs
  set s0 := initialState w h T cfg with hs0def
  set t1 := initResult v s0 with ht1def
  set m1 := autoPadOf t1 with hm1def
  set Pm := withPadding cfg (Padding.tuple m1) with hPmdef
  set s1b := initResult v (teardownSet (bumpForAuto t1) Pm) with hs1bdef
  have ho : s1b.originalProps.padding = some Padding.auto := by
    show (deepMixCfg emptyConfig cfg).padding = some Padding.auto
    rw [deepMixCfg_empty_left]
    exact hpad
  have hf : forcePadding s1b.originalProps emptyConfig = paddingOnly Padding.auto :=
    (forcePadding_forced _ _ rfl ho).trans rfl
  refine ⟨?_, ?_⟩
  · intro cfg2 hpadn
    rw [forcePadding_forced _ _ hpadn ho]
    rfl
  have hmergeEq : deepMixCfg s1b.props (forcePadding s1b.originalProps emptyConfig) = cfg := by
    rw [hf, deepMixCfg_paddingOnly]
    exact setPadding_self cfg Padding.auto hpad
  rw [updateConfigF_succ, hmergeEq] at h2
  have hinit3 : _initPass v (teardownSet s1b cfg) =
      Except.ok (initResult v (teardownSet s1b cfg)) :=
    initPass_of_no_crash v _ hcrash
  rw [hinit3] at h2
  dsimp only at h2
  have hres3 : resolvedPadding (initResult v (teardownSet s1b cfg)).props
      (initResult v (teardownSet s1b cfg)).theme = Padding.auto :=
    resolvedPadding_some _ _ _ hpad
  rw [if_pos hres3] at h2
  have hm2 : autoPadOf (initResult v (teardownSet s1b cfg)) = m1 := by
    rw [autoPadOf_initResult]
    show measuredAutoPad cfg
      (themeAfterInit Pm (themeAfterInit cfg T)) w h [] = m1
    rw [measuredAutoPad_TA, measuredAutoPad_TA]
    rfl
  rw [hm2] at h2
  have hmerge2 : deepMixCfg (bumpForAuto (initResult v (teardownSet s1b cfg))).props
      (forcePadding (bumpForAuto (initResult v (teardownSet s1b cfg))).originalProps
        (paddingOnly (Padding.tuple m1))) = Pm := by
    rw [forcePadding_some _ _ (Padding.tuple m1) rfl, deepMixCfg_paddingOnly]
    rfl
  rw [updateConfigF_succ, hmerge2] at h2
  have hinit4 : _initPass v
      (teardownSet (bumpForAuto (initResult v (teardownSet s1b cfg))) Pm) =
      Except.ok (initResult v
        (teardownSet (bumpForAuto (initResult v (teardownSet s1b cfg))) Pm)) :=
    initPass_of_no_crash v _ hcrash
  rw [hinit4] at h2
  dsimp only at h2
  rw [if_neg (by
    rw [resolvedPadding_some _ _ (Padding.tuple m1) rfl]
    intro hcon
    cases hcon)] at h2
  injection h2 with hs2
  subst hs2
  exact ⟨rfl, rfl⟩

/-- Witness for C2 at a concrete auto-padded construction, exercising the
forcing rule at a concrete non-empty padding-omitting partial as well. -/
theorem updateConfig_preserves_auto_witness :
    c10cfg.padding = some Padding.auto ∧
    constructF v0 2 100 100 {} c10cfg = Except.ok c10s ∧
    updateConfigF v0 2 c10s emptyConfig = Except.ok c2s2 ∧
    (forcePadding c10s.originalProps { data := some [] }).padding = some Padding.auto ∧
    c2s2.props.padding = c10s.props.padding :=
  ⟨rfl, rfl, rfl,
    (updateConfig_preserves_auto v0 100 100 {} c10cfg c10s c2s2 rfl rfl rfl).1
      { data := some [] } rfl,
    (updateConfig_preserves_auto v0 100 100 {} c10cfg c10s c2s2 rfl rfl rfl).2.2⟩

/-- C1: for any instance whose bound handler records were all created through
`onEvent` (and hence recorded in `eventHandlers`), `destroy()` unbinds every
record — the view's bound set is empty afterwards — and after a completed
`updateConfig()` rebuild every record bound to the (new) drawable view belongs
to the new epoch, so no binding from a retired epoch survives. -/
theorem no_handler_leak_across_epochs (s : PlotState) (v : Variant) (fuel : ℕ)
    (cfg : PlotConfig) (s2 : PlotState)
    (hrec : BoundRecorded s) (hupd : updateConfigF v fuel s cfg = Except.ok s2) :
    (destroy s).view.bound = [] ∧ ∀ r ∈ s2.view.bound, r.epoch = s2.epoch := by
  constructor
  · show offAll s.eventHandlers s.view.bound = []
    apply offAll_eq_nil
    intro b hb
    exact ⟨b, hrec b hb, rfl, rfl⟩
  · exact update_bound_epoch v fuel s cfg s2 hupd

/-- Witness for C1 at a concrete instance with one bound handler. -/
theorem no_handler_leak_across_epochs_witness :
    BoundRecorded c1s ∧
    updateConfigF v0 2 c1s emptyConfig = Except.ok c1s2 ∧
    (destroy c1s).view.bound = [] ∧
    ∀ r ∈ c1s2.view.bound, r.epoch = c1s2.epoch := by
  have hrec : BoundRecorded c1s := by
    show ∀ r ∈ c1s.view.bound, r ∈ c1s.eventHandlers
    decide
  have hupd : updateConfigF v0 2 c1s emptyConfig = Except.ok c1s2 := rfl
  obtain ⟨ha, hb⟩ := no_handler_leak_across_epochs c1s v0 2 emptyConfig c1s2 hrec hupd
  exact ⟨hrec, hupd, ha, hb⟩

/-- C7 (amended): `destroy()` only raises the public `destroyed` flag; the
mutating operations `changeData` / `render` / `updateConfig` perform no
lifecycle check and never produce an instance-destroyed error — they operate
directly on the disposed view (callers must consult the flag themselves). -/
theorem destroyed_flag_only (s : PlotState) (d : List DataRow) (v : Variant)
    (fuel : ℕ) (cfg : PlotConfig) :
    (destroy s).destroyed = true ∧
    (destroy s).view.destroyedV = true ∧
    changeData (destroy s) d =
      Except.ok { destroy s with view := { (destroy s).view with data := some d } } ∧
    changeData (destroy s) d ≠ Except.error Err.instanceDestroyed ∧
    render (destroy s) ≠ Except.error Err.instanceDestroyed ∧
    updateConfigF v fuel (destroy s) cfg ≠ Except.error Err.instanceDestroyed := by
  refine ⟨rfl, rfl, rfl, ?_, ?_, update_no_destroyed_signal v fuel _ cfg⟩
  · intro hcontra
    cases hcontra
  · intro hcontra
    unfold render at hcontra
    rcases hd : (destroy s).props.data with _ | ds <;> rw [hd] at hcontra <;>
      dsimp only at hcontra
    · cases hcontra
    · split at hcontra <;> cases hcontra

/-- C7 counterexample: on a concrete destroyed instance, the mutating
operations do not fail with an instance-destroyed signal — `changeData`
succeeds and writes into the already-disposed view. -/
theorem mutating_after_destroy_not_failfast :
    c7s.destroyed = true ∧
    c7s.view.destroyedV = true ∧
    changeData c7s [] ≠ Except.error Err.instanceDestroyed ∧
    render c7s ≠ Except.error Err.instanceDestroyed ∧
    updateConfigF v0 2 c7s emptyConfig ≠ Except.error Err.instanceDestroyed ∧
    (changeData c7s []).isOk = true := by
  refine ⟨rfl, rfl, ?_, ?_, update_no_destroyed_signal v0 2 c7s emptyConfig, rfl⟩
  · intro hcontra
    cases hcontra
  · intro hcontra
    rw [show render c7s = Except.ok c7s from rfl] at hcontra
    cases hcontra

lemma styleApp_absorb (oA oB : Option Style) (s : Style) :
    styleApp (mergeStyleOpt oA oB) (styleApp oA s) = styleApp (mergeStyleOpt oA oB) s := by
  rcases oA with _ | SA
  · rfl
  · rcases oB with _ | SB
    · simp [mergeStyleOpt, mergeObjOpt, styleApp, mixStyle_self_absorb]
    · simp [mergeStyleOpt, mergeObjOpt, styleApp, mixStyle_absorb]

lemma styleApp_self_absorb (o : Option Style) (s : Style) :
    styleApp o (styleApp o s) = styleApp o s := by
  rcases o with _ | S
  · rfl
  · simp [styleApp, mixStyle_self_absorb]

lemma titleStyleOf_eq (p : PlotConfig) (s : Style) :
    titleStyleOf p s = styleApp (p.title.bind TitleCfg.style) s := by
  unfold titleStyleOf styleApp
  rcases p.title with _ | t
  · rfl
  · rcases t.style <;> rfl

lemma descStyleOf_eq (p : PlotConfig) (s : Style) :
    descStyleOf p s = styleApp (p.description.bind DescCfg.style) s := by
  unfold descStyleOf styleApp
  rcases p.description with _ | d
  · rfl
  · rcases d.style <;> rfl

lemma tooltipStyleOf_eq (p : PlotConfig) (s : Style) :
    tooltipStyleOf p s =
      if tooltipDisabled p then s else styleApp (p.tooltip.bind TooltipCfg.style) s := by
  unfold tooltipStyleOf styleApp
  rcases p.tooltip with _ | tt
  · rfl
  · rfl

lemma deepMix_title_style (a b : PlotConfig) :
    (deepMixCfg a b).title.bind TitleCfg.style =
      mergeStyleOpt (a.title.bind TitleCfg.style) (b.title.bind TitleCfg.style) := by
  rcases ha : a.title with _ | ta <;> rcases hb : b.title with _ | tb <;>
    simp [deepMixCfg, mergeObjOpt, ha, hb, mergeTitle, mergeStyleOpt]
  rcases tb.style <;> rfl

lemma deepMix_desc_style (a b : PlotConfig) :
    (deepMixCfg a b).description.bind DescCfg.style =
      mergeStyleOpt (a.description.bind DescCfg.style) (b.description.bind DescCfg.style) := by
  rcases ha : a.description with _ | da <;> rcases hb : b.description with _ | db <;>
    simp [deepMixCfg, mergeObjOpt, ha, hb, mergeDesc, mergeStyleOpt]
  rcases db.style <;> rfl

lemma deepMix_tooltip_style (a b : PlotConfig) :
    (deepMixCfg a b).tooltip.bind TooltipCfg.style =
      mergeStyleOpt (a.tooltip.bind TooltipCfg.style) (b.tooltip.bind TooltipCfg.style) := by
  rcases ha : a.tooltip with _ | ta <;> rcases hb : b.tooltip with _ | tb <;>
    simp [deepMixCfg, mergeObjOpt, ha, hb, mergeTooltip, mergeStyleOpt]
  rcases tb.style <;> rfl

lemma titleStyleOf_absorb (a b : PlotConfig) (s : Style) :
    titleStyleOf (deepMixCfg a b) (titleStyleOf a s) = titleStyleOf (deepMixCfg a b) s := by
  rw [titleStyleOf_eq, titleStyleOf_eq, titleStyleOf_eq, deepMix_title_style]
  exact styleApp_absorb _ _ s

lemma descStyleOf_absorb (a b : PlotConfig) (s : Style) :
    descStyleOf (deepMixCfg a b) (descStyleOf a s) = descStyleOf (deepMixCfg a b) s := by
  rw [descStyleOf_eq, descStyleOf_eq, descStyleOf_eq, deepMix_desc_style]
  exact styleApp_absorb _ _ s

lemma tooltipStyleOf_absorb (a b : PlotConfig) (s : Style)
    (hc : tooltipMergeCompatible a b) :
    tooltipStyleOf (deepMixCfg a b) (tooltipStyleOf a s) =
      tooltipStyleOf (deepMixCfg a b) s := by
  by_cases hM : tooltipDisabled (deepMixCfg a b) = true
  · rw [tooltipStyleOf_eq (deepMixCfg a b), tooltipStyleOf_eq (deepMixCfg a b), hM,
      if_pos rfl, if_pos rfl]
    rcases hc hM with hda | hstyle
    · rw [tooltipStyleOf_eq, hda, if_pos rfl]
    · rw [tooltipStyleOf_eq, hstyle]
      split <;> rfl
  · rw [Bool.not_eq_true] at hM
    by_cases hA : tooltipDisabled a = true
    · rw [tooltipStyleOf_eq a, hA, if_pos rfl]
    · rw [Bool.not_eq_true] at hA
      rw [tooltipStyleOf_eq a, hA, tooltipStyleOf_eq (deepMixCfg a b), hM,
        tooltipStyleOf_eq (deepMixCfg a b), hM, deepMix_tooltip_style]
      simp only [Bool.false_eq_true, if_false]
      exact styleApp_absorb _ _ s

lemma themeAfterInit_absorb (a b : PlotConfig) (T : Theme)
    (hc : tooltipMergeCompatible a b) :
    themeAfterInit (deepMixCfg a b) (themeAfterInit a T) =
      themeAfterInit (deepMixCfg a b) T := by
  simp [themeAfterInit, titleStyleOf_absorb a b, descStyleOf_absorb a b,
    tooltipStyleOf_absorb a b _ hc]

lemma themeAfterInit_self_absorb (p : PlotConfig) (T : Theme) :
    themeAfterInit p (themeAfterInit p T) = themeAfterInit p T := by
  have h1 : titleStyleOf p (titleStyleOf p T.title.style) = titleStyleOf p T.title.style := by
    simp only [titleStyleOf_eq]
    exact styleApp_self_absorb _ _
  have h2 : descStyleOf p (descStyleOf p T.description.style) =
      descStyleOf p T.description.style := by
    simp only [descStyleOf_eq]
    exact styleApp_self_absorb _ _
  have h3 : tooltipStyleOf p (tooltipStyleOf p T.tooltip) = tooltipStyleOf p T.tooltip := by
    simp only [tooltipStyleOf_eq]
    by_cases hd : tooltipDisabled p = true
    · simp [hd]
    · simp [hd, styleApp_self_absorb]
  simp [themeAfterInit, h1, h2, h3]

lemma deepMix_padding_none (a b : PlotConfig) (hb : b.padding = none) :
    (deepMixCfg a b).padding = a.padding := by
  simp [deepMixCfg, hb, mergeOpt]

lemma deepMix_withPadding_right (a b : PlotConfig) (y : Padding) :
    deepMixCfg a (withPadding b y) = withPadding (deepMixCfg a b) y := by
  rcases a with ⟨d1, p1, t1, ds1, tt1, l1, m1, e1⟩
  rcases b with ⟨d2, p2, t2, ds2, tt2, l2, m2, e2⟩
  simp [deepMixCfg, withPadding, mergeOpt]

lemma deepMix_withPadding_left (a b : PlotConfig) (x : Padding) (hb : b.padding = none) :
    deepMixCfg (withPadding a x) b = withPadding (deepMixCfg a b) x := by
  rcases a with ⟨d1, p1, t1, ds1, tt1, l1, m1, e1⟩
  rcases b with ⟨d2, p2, t2, ds2, tt2, l2, m2, e2⟩
  simp only [PlotConfig.mk.injEq] at hb ⊢
  simp [deepMixCfg, withPadding, mergeOpt]
  rw [show p2 = none from hb]

lemma withPadding_withPadding (c : PlotConfig) (x y : Padding) :
    withPadding (withPadding c x) y = withPadding c y := rfl

lemma forcePadding_no_force_orig (o c : PlotConfig) (h : o.padding ≠ some Padding.auto) :
    forcePadding o c = c := by
  unfold forcePadding
  have hb : (o.padding == some Padding.auto) = false := by
    rw [beq_eq_false_iff_ne]
    exact h
  simp [hb]

lemma construct_no_trigger (v : Variant) (fuel : ℕ) (w h : ℚ) (T : Theme)
    (cfg : PlotConfig) (hcrash : descCrash cfg = false)
    (hres : resolvedPadding cfg T ≠ Padding.auto) :
    constructF v fuel w h T cfg = Except.ok (initResult v (initialState w h T cfg)) := by
  unfold constructF
  rw [initPass_of_no_crash v _ hcrash]
  dsimp only
  rw [if_neg (show resolvedPadding (initResult v (initialState w h T cfg)).props
      (initResult v (initialState w h T cfg)).theme ≠ Padding.auto from hres)]

/-- C8 (amended): constructing with `cfg` and then updating with a partial
`cfg2` that does not touch padding yields the same assembled rendering
configuration as constructing directly from the deep merge of `cfg` and
`cfg2`, provided (i) the effective padding is "auto" only when `cfg` itself
records it (theme-supplied "auto" escapes the original-snapshot recall rule),
and (ii) `cfg2` does not disable a tooltip whose style `cfg` had already
merged into the shared theme (that merge is never undone). -/
theorem roundtrip_update_eq_construct (v : Variant) (w h : ℚ) (T : Theme)
    (cfg cfg2 : PlotConfig) (s1 s2 s3 : PlotState)
    (hp2 : cfg2.padding = none)
    (hcond1 : paddingRecallSound cfg T)
    (hcond2 : tooltipMergeCompatible cfg cfg2)
    (h1 : constructF v 2 w h T cfg = Except.ok s1)
    (h2 : updateConfigF v 2 s1 cfg2 = Except.ok s2)
    (h3 : constructF v 2 w h T (deepMixCfg cfg cfg2) = Except.ok s3) :
    s2.config = s3.config := by
  have hcrash : descCrash cfg = false := construct_ok_no_crash v 2 w h T cfg s1 h1
  have hcrashM : descCrash (deepMixCfg cfg cfg2) = false :=
    construct_ok_no_crash v 2 w h T _ s3 h3
  by_cases hAp : cfg.padding = some Padding.auto
  · -- the construction itself declared "auto" padding
    have hauto : resolvedPadding cfg T = Padding.auto := resolvedPadding_some _ _ _ hAp
    have hMp : (deepMixCfg cfg cfg2).padding = some Padding.auto := by
      rw [deepMix_padding_none cfg cfg2 hp2]
      exact hAp
    have h0 : constructF v 2 w h T cfg =
        Except.ok (initResult v (teardownSet
          (bumpForAuto (initResult v (initialState w h T cfg)))
          (withPadding cfg (Padding.tuple (autoPadOf (initResult v (initialState w h T cfg))))))) :=
      construct_auto_trace v w h T cfg hcrash hauto 0
    rw [h0] at h1
    injection h1 with hs1
    subst hs1
    set t1 := initResult v (initialState w h T cfg) with ht1def
    set m1 := autoPadOf t1 with hm1def
    set Pm := withPadding cfg (Padding.tuple m1) with hPmdef
    set s1b := initResult v (teardownSet (bumpForAuto t1) Pm) with hs1bdef
    have ho : s1b.originalProps.padding = some Padding.auto := by
      show (deepMixCfg emptyConfig cfg).padding = some Padding.auto
      rw [deepMixCfg_empty_left]
      exact hAp
    have hf : forcePadding s1b.originalProps cfg2 = withPadding cfg2 Padding.auto :=
      forcePadding_forced _ _ hp2 ho
    have hmergeB : deepMixCfg s1b.props (forcePadding s1b.originalProps cfg2) =
        deepMixCfg cfg cfg2 := by
      rw [hf]
      show deepMixCfg Pm (withPadding cfg2 Padding.auto) = deepMixCfg cfg cfg2
      rw [hPmdef, deepMix_withPadding_right, deepMix_withPadding_left cfg cfg2 _ hp2,
        withPadding_withPadding]
      exact setPadding_self _ Padding.auto hMp
    rw [updateConfigF_succ, hmergeB] at h2
    rw [initPass_of_no_crash v _ hcrashM] at h2
    dsimp only at h2
    have hresB : resolvedPadding
        (initResult v (teardownSet s1b (deepMixCfg cfg cfg2))).props
        (initResult v (teardownSet s1b (deepMixCfg cfg cfg2))).theme = Padding.auto :=
      resolvedPadding_some _ _ _ hMp
    rw [if_pos hresB] at h2
    have hm2 : autoPadOf (initResult v (teardownSet s1b (deepMixCfg cfg cfg2))) =
        measuredAutoPad (deepMixCfg cfg cfg2) T w h [] := by
      rw [autoPadOf_initResult]
      show measuredAutoPad (deepMixCfg cfg cfg2)
        (themeAfterInit Pm (themeAfterInit cfg T)) w h [] = _
      rw [measuredAutoPad_TA, measuredAutoPad_TA]
    rw [hm2] at h2
    have hmerge2B : deepMixCfg
        (bumpForAuto (initResult v (teardownSet s1b (deepMixCfg cfg cfg2)))).props
        (forcePadding
          (bumpForAuto (initResult v (teardownSet s1b (deepMixCfg cfg cfg2)))).originalProps
          (paddingOnly (Padding.tuple (measuredAutoPad (deepMixCfg cfg cfg2) T w h [])))) =
        withPadding (deepMixCfg cfg cfg2)
          (Padding.tuple (measuredAutoPad (deepMixCfg cfg cfg2) T w h [])) := by
      rw [forcePadding_some _ _ _ rfl, deepMixCfg_paddingOnly]
      exact rfl
    rw [updateConfigF_succ, hmerge2B] at h2
    rw [initPass_of_no_crash v _ hcrashM] at h2
    dsimp only at h2
    rw [if_neg (by
      rw [resolvedPadding_some _ _
        (Padding.tuple (measuredAutoPad (deepMixCfg cfg cfg2) T w h [])) rfl]
      intro hcon
      cases hcon)] at h2
    injection h2 with hs2
    subst hs2
    have h30 : constructF v 2 w h T (deepMixCfg cfg cfg2) =
        Except.ok (initResult v (teardownSet
          (bumpForAuto (initResult v (initialState w h T (deepMixCfg cfg cfg2))))
          (withPadding (deepMixCfg cfg cfg2)
            (Padding.tuple (autoPadOf (initResult v (initialState w h T (deepMixCfg cfg cfg2)))))))) :=
      construct_auto_trace v w h T _ hcrashM (resolvedPadding_some _ _ _ hMp) 0
    rw [h30] at h3
    injection h3 with hs3
    subst hs3
    show buildConfig v
        (withPadding (deepMixCfg cfg cfg2)
          (Padding.tuple (measuredAutoPad (deepMixCfg cfg cfg2) T w h [])))
        (themeAfterInit (deepMixCfg cfg cfg2)
          (themeAfterInit cfg (themeAfterInit cfg T))) w h =
      buildConfig v
        (withPadding (deepMixCfg cfg cfg2)
          (Padding.tuple (measuredAutoPad (deepMixCfg cfg cfg2) T w h [])))
        (themeAfterInit (deepMixCfg cfg cfg2) T) w h
    rw [themeAfterInit_self_absorb cfg T, themeAfterInit_absorb cfg cfg2 T hcond2]
  · -- the construction padding is not the "auto" marker
    have hres : resolvedPadding cfg T ≠ Padding.auto := by
      rcases hcp : cfg.padding with _ | pd
      · have hrw : resolvedPadding cfg T = T.padding := by
          unfold resolvedPadding
          rw [hcp]
          rfl
        rw [hrw]
        rcases hcond1 with hx | hx
        · exact absurd hcp hx
        · exact hx
      · cases pd with
        | auto => exact absurd hcp hAp
        | tuple q =>
          rw [resolvedPadding_some _ _ _ hcp]
          intro hcon
          cases hcon
    rw [construct_no_trigger v 2 w h T cfg hcrash hres] at h1
    injection h1 with hs1
    subst hs1
    set t1 := initResult v (initialState w h T cfg) with ht1def
    have hop : t1.originalProps.padding = cfg.padding := by
      show (deepMixCfg emptyConfig cfg).padding = cfg.padding
      rw [deepMixCfg_empty_left]
    have hforceA : forcePadding t1.originalProps cfg2 = cfg2 :=
      forcePadding_no_force_orig _ _ (by
        rw [hop]
        exact hAp)
    have hmergeA : deepMixCfg t1.props (forcePadding t1.originalProps cfg2) =
        deepMixCfg cfg cfg2 := by
      rw [hforceA]
      exact rfl
    rw [updateConfigF_succ, hmergeA] at h2
    rw [initPass_of_no_crash v _ hcrashM] at h2
    dsimp only at h2
    have hresM : resolvedPadding
        (initResult v (teardownSet t1 (deepMixCfg cfg cfg2))).props
        (initResult v (teardownSet t1 (deepMixCfg cfg cfg2))).theme ≠ Padding.auto := by
      show resolvedPadding (deepMixCfg cfg cfg2)
        (themeAfterInit (deepMixCfg cfg cfg2) (themeAfterInit cfg T)) ≠ Padding.auto
      unfold resolvedPadding
      rw [deepMix_padding_none cfg cfg2 hp2, themeAfterInit_padding, themeAfterInit_padding]
      exact hres
    rw [if_neg hresM] at h2
    injection h2 with hs2
    subst hs2
    have hresM3 : resolvedPadding (deepMixCfg cfg cfg2) T ≠ Padding.auto := by
      unfold resolvedPadding
      rw [deepMix_padding_none cfg cfg2 hp2]
      exact hres
    rw [construct_no_trigger v 2 w h T _ hcrashM hresM3] at h3
    injection h3 with hs3
    subst hs3
    show buildConfig v (deepMixCfg cfg cfg2) (themeAfterInit cfg T) w h =
      buildConfig v (deepMixCfg cfg cfg2) T w h
    unfold buildConfig
    rw [themeAfterInit_absorb cfg cfg2 T hcond2]
    exact rfl

/-- Witness for the amended C8 at a concrete configuration. -/
theorem roundtrip_update_eq_construct_witness :
    emptyConfig.padding = none ∧
    paddingRecallSound emptyConfig {} ∧
    tooltipMergeCompatible emptyConfig emptyConfig ∧
    constructF v0 2 50 50 {} emptyConfig = Except.ok c8wS1 ∧
    updateConfigF v0 2 c8wS1 emptyConfig = Except.ok c8wS2 ∧
    constructF v0 2 50 50 {} (deepMixCfg emptyConfig emptyConfig) = Except.ok c8wS3 ∧
    c8wS2.config = c8wS3.config := by
  have hc1 : paddingRecallSound emptyConfig ({} : Theme) := Or.inr (by decide)
  have hc2 : tooltipMergeCompatible emptyConfig emptyConfig := fun hff =>
    absurd hff (by decide)
  exact ⟨rfl, hc1, hc2, rfl, rfl, rfl,
    roundtrip_update_eq_construct v0 50 50 {} emptyConfig emptyConfig c8wS1 c8wS2 c8wS3
      rfl hc1 hc2 rfl rfl rfl⟩

/-- C8 counterexample: the round-trip equation fails as stated, in two ways.
Theme-auto scenario: with a theme default padding of "auto" and a config that
omits padding, an update adding a title yields a different panel range than
direct merged construction (the recall rule only consults the original
snapshot, so the second measurement pass is skipped).  Tooltip-toggle
scenario: an update that sets `tooltip.visible: false` after the original
config merged a tooltip style leaves the style in the shared theme, while
direct merged construction never merges it. -/
theorem roundtrip_counterexample :
    (c8aCfg2.padding = none ∧
     constructF v0 2 100 100 c8aTheme emptyConfig = Except.ok c8aS1 ∧
     updateConfigF v0 2 c8aS1 c8aCfg2 = Except.ok c8aS2 ∧
     constructF v0 2 100 100 c8aTheme (deepMixCfg emptyConfig c8aCfg2) = Except.ok c8aS3 ∧
     c8aS2.config ≠ c8aS3.config) ∧
    (c8bCfg2.padding = none ∧
     constructF v0 2 100 100 {} c8bCfg = Except.ok c8bS1 ∧
     updateConfigF v0 2 c8bS1 c8bCfg2 = Except.ok c8bS2 ∧
     constructF v0 2 100 100 {} (deepMixCfg c8bCfg c8bCfg2) = Except.ok c8bS3 ∧
     c8bS2.config ≠ c8bS3.config) := by
  refine ⟨⟨rfl, rfl, rfl, rfl, ?_⟩, ⟨rfl, rfl, rfl, rfl, ?_⟩⟩
  · intro hcon
    have hd : decide (c8aS2.config.panelRange = c8aS3.config.panelRange) = false := by
      with_unfolding_all rfl
    exact of_decide_eq_false hd (congrArg G2Config.panelRange hcon)
  · intro hcon
    have hd : decide (c8bS2.config.theme.tooltip "fill" =
        c8bS3.config.theme.tooltip "fill") = false := by
      with_unfolding_all rfl
    exact of_decide_eq_false hd (congrArg (fun c => c.theme.tooltip "fill") hcon)
